import Mathlib

/-!
Verification of the return-visit billing computation and form validation of
the appointee-buddy clinic application.

The revenue loop lives in the dashboard component (`fetchTodayStats`): it sums,
over today's appointments with status `completed`, a per-appointment
contribution.  For a return visit it looks up the most recent completed
appointment for the same patient and doctor (excluding the current one) and,
when the doctor's `free_return_days` is truthy and the day difference is within
that window, the visit is free; otherwise the contribution falls through the
JavaScript `||` cascade `cost || return_consultation_fee || consultation_fee
|| 0` (`||` skips null *and zero* values).  A non-return visit uses
`cost || consultation_fee || 0`.

Dates are date-only strings (SQL `DATE`), so `Math.floor((cur - last) / day)`
is the exact integer difference of day numbers; we model dates as `Int` day
numbers.  Monetary values (`NUMERIC(10,2)`) are modelled as `ℚ`,
`free_return_days` (SQL `integer`) as `Int`.  Nullable columns become
`Option`.
-/

/-- The `appointment_status` enum of the database schema.  `return` is a Lean
keyword, hence the constructor name `ret`. -/
inductive AppointmentStatus
  | scheduled
  | waiting
  | completed
  | ret
  | cancelled
deriving DecidableEq

/-- The doctor columns selected by the revenue query:
`doctors(consultation_fee, return_consultation_fee, free_return_days)`.
All three columns are nullable. -/
structure DoctorFees where
  consultation_fee : Option ℚ
  return_consultation_fee : Option ℚ
  free_return_days : Option Int
deriving DecidableEq

/-- An appointment row as consumed by `fetchTodayStats`, with the joined
doctor record (`apt.doctors`, null when the join found no row). -/
structure Appointment where
  id : Nat
  patient_id : Nat
  doctor_id : Nat
  appointment_date : Int
  status : AppointmentStatus
  cost : Option ℚ
  is_return_visit : Bool
  doctors : Option DoctorFees
deriving DecidableEq

/-- JavaScript `x || y` for a nullable number `x`: the result is `x` when `x`
is non-null and nonzero (truthy), else `y`. -/
def jsOr (x : Option ℚ) (y : ℚ) : ℚ :=
  match x with
  | some v => if v = 0 then y else v
  | none => y

/-- `apt.cost || apt.doctors?.return_consultation_fee ||
apt.doctors?.consultation_fee || 0` — the fee cascade used for return
visits. -/
def returnCascade (apt : Appointment) : ℚ :=
  jsOr apt.cost
    (jsOr (apt.doctors.bind (fun d => d.return_consultation_fee))
      (jsOr (apt.doctors.bind (fun d => d.consultation_fee)) 0))

/-- `apt.cost || apt.doctors?.consultation_fee || 0` — the cascade used for
non-return visits. -/
def newVisitCascade (apt : Appointment) : ℚ :=
  jsOr apt.cost (jsOr (apt.doctors.bind (fun d => d.consultation_fee)) 0)

/-- The filter of the `lastVisit` query: same patient, same doctor, status
`completed`, different row id. -/
def matchesPriorVisit (apt r : Appointment) : Bool :=
  r.patient_id == apt.patient_id && r.doctor_id == apt.doctor_id &&
    r.status == AppointmentStatus.completed && r.id != apt.id

/-- The rows the `lastVisit` query ranges over, for a given appointment. -/
def priorVisits (db : List Appointment) (apt : Appointment) : List Appointment :=
  db.filter (fun r => matchesPriorVisit apt r)

/-- Largest element of a list of day numbers, `none` on the empty list. -/
def maxDate : List Int → Option Int
  | [] => none
  | d :: ds =>
    match maxDate ds with
    | none => some d
    | some m => some (max d m)

/-- The `appointment_date` returned by the `lastVisit` query:
`order('appointment_date', descending).limit(1).maybeSingle()` over the
completed appointments of the same patient-doctor pair, excluding the current
row.  Only the date of the row is consumed, and the query does not restrict
to dates before the current appointment. -/
def lastVisitDate (db : List Appointment) (apt : Appointment) : Option Int :=
  maxDate ((priorVisits db apt).map (fun r => r.appointment_date))

/-- `apt.doctors?.free_return_days` filtered through JavaScript truthiness:
`some v` only when the joined doctor row exists, the column is non-null and
its value is nonzero. -/
def freeReturnDaysTruthy (apt : Appointment) : Option Int :=
  match apt.doctors.bind (fun d => d.free_return_days) with
  | some v => if v = 0 then none else some v
  | none => none

/-- Revenue contribution of one completed appointment, as computed by the
loop body of `fetchTodayStats`.  `db` supplies the rows the `lastVisit`
query can see. -/
def contribution (db : List Appointment) (apt : Appointment) : ℚ :=
  if apt.is_return_visit then
    match lastVisitDate db apt, freeReturnDaysTruthy apt with
    | some lastDate, some frd =>
      if apt.appointment_date - lastDate ≤ frd then 0 else returnCascade apt
    | _, _ => returnCascade apt
  else newVisitCascade apt

/-- `totalRevenue` of `fetchTodayStats`: filter the fetched appointments to
status `completed` and accumulate the contributions in input order. -/
def totalRevenue (db : List Appointment) (appointments : List Appointment) : ℚ :=
  (appointments.filter (fun apt => apt.status == AppointmentStatus.completed)).foldl
    (fun acc apt => acc + contribution db apt) 0

/-! ### Spec-side restatements

These definitions follow the wording of the specification (and of the claims
derived from it), to be compared with the code-derived definitions above. -/

/-- Spec-side predicate of the data-model invariant: a *strictly earlier*
completed visit exists for the same (patient, doctor) pair whose date is
within `free_return_days` days (inclusive) of the appointment's date. -/
def strictlyEarlierWithinWindow (db : List Appointment) (apt : Appointment) : Bool :=
  db.any (fun r => matchesPriorVisit apt r &&
    decide (r.appointment_date < apt.appointment_date) &&
    decide (apt.appointment_date - r.appointment_date ≤
      (apt.doctors.bind (fun d => d.free_return_days)).getD 0))

/-- Spec-side cascade written with nullish coalescing, as the spec states it:
`cost ?? return_consultation_fee ?? consultation_fee ?? 0`, where a value is
skipped only when it is null. -/
def nullishReturnCascade (apt : Appointment) : ℚ :=
  apt.cost.getD
    ((apt.doctors.bind (fun d => d.return_consultation_fee)).getD
      ((apt.doctors.bind (fun d => d.consultation_fee)).getD 0))

/-- Fallback part of the amended non-return cascade: the consultation fee when
set and nonzero, else 0. -/
def consultFallback (apt : Appointment) : ℚ :=
  match apt.doctors.bind (fun d => d.consultation_fee) with
  | some c => if c ≠ 0 then c else 0
  | none => 0

/-- Amended spec-side cascade for a non-return visit: the cost when set and
nonzero, else the consultation fee when set and nonzero, else 0. -/
def newCascadeSpec (apt : Appointment) : ℚ :=
  match apt.cost with
  | some c => if c ≠ 0 then c else consultFallback apt
  | none => consultFallback apt

/-- Amended spec-side condition for a free return visit: `free_return_days`
is set and nonzero, and *some* completed visit with a different id for the
same (patient, doctor) pair lies within the window — equivalently
`date - other.date ≤ free_return_days`, which imposes no strictly-earlier
requirement (same-day and later visits qualify as well). -/
def freeQualifies (db : List Appointment) (apt : Appointment) : Bool :=
  match freeReturnDaysTruthy apt with
  | none => false
  | some frd =>
    (priorVisits db apt).any (fun r =>
      decide (apt.appointment_date - r.appointment_date ≤ frd))

/-! ### Search sanitisation (`src/utils/sanitizeSearch.ts`)

Strings are modelled as `List Char`.  JavaScript
`String.prototype.replace` with a global single-character pattern and a
replacement string is a character-wise substitution. -/

/-- `s.replace(/t/g, r)` for a single character `t` and replacement string
`r`. -/
def replaceAll (t : Char) (r : List Char) : List Char → List Char
  | [] => []
  | c :: s => (if c = t then r else [c]) ++ replaceAll t r s

/-- `sanitizeSearchInput`: empty (falsy) input yields the empty string;
otherwise escape backslashes first, then percent signs, then underscores. -/
def sanitizeSearchInput (input : List Char) : List Char :=
  if input = [] then []
  else
    replaceAll '_' ['\\', '_']
      (replaceAll '%' ['\\', '%']
        (replaceAll '\\' ['\\', '\\'] input))

/-- Spec-side single-pass escape of one character: each backslash, percent
sign or underscore is preceded by an escaping backslash, every other
character is left unchanged. -/
def escapeSpecChar (c : Char) : List Char :=
  if c = '\\' ∨ c = '%' ∨ c = '_' then ['\\', c] else [c]

/-- Spec-side sanitiser: escape every character of the input in one pass. -/
def sanitizeSpec : List Char → List Char
  | [] => []
  | c :: s => escapeSpecChar c ++ sanitizeSpec s

/-! ### Doctor management forms (`validateAdd` / `validateEdit`)

Form errors are modelled as a list of (field, message) pairs; the TypeScript
code builds an object with one key per offending field, and submission
proceeds only when that object is empty. -/

/-- The values handled by the add-doctor form (`initialAddValues`). -/
structure AddDoctorValues where
  user_id : String
  doctor_name : String
  specialization : String
  license_number : String
  consultation_fee : ℚ
  return_consultation_fee : ℚ
  free_return_days : Int
  working_hours_start : String
  working_hours_end : String
  bio : String
  experience_years : Int
deriving DecidableEq

/-- The values handled by the edit-doctor form (`initialEditValues`). -/
structure EditDoctorValues where
  id : String
  doctor_name : String
  specialization : String
  license_number : String
  consultation_fee : ℚ
  return_consultation_fee : ℚ
  free_return_days : Int
  working_hours_start : String
  working_hours_end : String
  bio : String
  experience_years : Int
deriving DecidableEq

/-- `validateAdd` of the doctors page: required user, name and
specialization, and non-negative consultation fee and free-return window. -/
def validateAdd (values : AddDoctorValues) : List (String × String) :=
  (if values.user_id = "" then [("user_id", "يجب اختيار مستخدم.")] else []) ++
  (if values.doctor_name = "" then [("doctor_name", "اسم الطبيب مطلوب.")] else []) ++
  (if values.specialization = "" then [("specialization", "التخصص مطلوب.")] else []) ++
  (if values.consultation_fee < 0 then
    [("consultation_fee", "الرسوم لا يمكن أن تكون سالبة.")] else []) ++
  (if values.free_return_days < 0 then
    [("free_return_days", "عدد أيام العودة لا يمكن أن يكون سالباً.")] else [])

/-- `validateEdit` of the doctors page: like `validateAdd`, without the
user-selection requirement. -/
def validateEdit (values : EditDoctorValues) : List (String × String) :=
  (if values.doctor_name = "" then [("doctor_name", "اسم الطبيب مطلوب.")] else []) ++
  (if values.specialization = "" then [("specialization", "التخصص مطلوب.")] else []) ++
  (if values.consultation_fee < 0 then
    [("consultation_fee", "الرسوم لا يمكن أن تكون سالبة.")] else []) ++
  (if values.free_return_days < 0 then
    [("free_return_days", "عدد أيام العودة لا يمكن أن يكون سالباً.")] else [])

/-- Modelled from the spec: the form hook (`useForm`, imported from a module
whose source is not among the files) runs the validator on the submitted
values and invokes the submit handler — which issues the database write —
only when the validator reports no errors. -/
def submitGate {V : Type} (validate : V → List (String × String)) (values : V) :
    Option V :=
  if validate values = [] then some values else none

/-! ### Concrete instances

Each instance is used by the theorems of exactly one claim. -/

/-- Completed return visit with no fee data and no history (C1). -/
def aptC1 : Appointment :=
  { id := 1, patient_id := 1, doctor_id := 1, appointment_date := 10,
    status := AppointmentStatus.completed, cost := none,
    is_return_visit := true, doctors := none }

/-- Return visit inside a 7-day window with a recorded cost (C1 witness). -/
def aptC1w : Appointment :=
  { id := 2, patient_id := 1, doctor_id := 1, appointment_date := 10,
    status := AppointmentStatus.completed, cost := some 40,
    is_return_visit := true,
    doctors := some { consultation_fee := some 50,
                      return_consultation_fee := some 30,
                      free_return_days := some 7 } }

/-- History for the C1 witness: a completed visit 3 days earlier. -/
def dbC1w : List Appointment :=
  [ { id := 1, patient_id := 1, doctor_id := 1, appointment_date := 7,
      status := AppointmentStatus.completed, cost := some 50,
      is_return_visit := false, doctors := none } ]

/-- Non-return visit with a recorded cost of 0 and a consultation fee (C2). -/
def aptC2x : Appointment :=
  { id := 3, patient_id := 2, doctor_id := 1, appointment_date := 10,
    status := AppointmentStatus.completed, cost := some 0,
    is_return_visit := false,
    doctors := some { consultation_fee := some 50,
                      return_consultation_fee := none,
                      free_return_days := none } }

/-- Non-return visit with a recorded cost (C2 witness). -/
def aptC2w : Appointment :=
  { id := 4, patient_id := 2, doctor_id := 1, appointment_date := 10,
    status := AppointmentStatus.completed, cost := some 100,
    is_return_visit := false,
    doctors := some { consultation_fee := some 50,
                      return_consultation_fee := some 30,
                      free_return_days := some 7 } }

/-- Return visit whose doctor has `free_return_days = 0` and a same-day
completed visit on record (C3). -/
def aptC3x : Appointment :=
  { id := 6, patient_id := 3, doctor_id := 2, appointment_date := 10,
    status := AppointmentStatus.completed, cost := some 50,
    is_return_visit := true,
    doctors := some { consultation_fee := some 50,
                      return_consultation_fee := some 30,
                      free_return_days := some 0 } }

/-- History for C3: a completed visit of the same pair on the same day. -/
def dbC3x : List Appointment :=
  [ { id := 5, patient_id := 3, doctor_id := 2, appointment_date := 10,
      status := AppointmentStatus.completed, cost := some 50,
      is_return_visit := false, doctors := none } ]

/-- Return visit exactly at the 7-day boundary, no recorded cost (C3
witness). -/
def aptC3w : Appointment :=
  { id := 8, patient_id := 3, doctor_id := 3, appointment_date := 7,
    status := AppointmentStatus.completed, cost := none,
    is_return_visit := true,
    doctors := some { consultation_fee := some 50,
                      return_consultation_fee := some 30,
                      free_return_days := some 7 } }

/-- History for the C3 witness: a completed visit on day 0. -/
def dbC3w : List Appointment :=
  [ { id := 7, patient_id := 3, doctor_id := 3, appointment_date := 0,
      status := AppointmentStatus.completed, cost := some 50,
      is_return_visit := false, doctors := none } ]

/-- Return visit 8 days after the last one, with a recorded cost of 0 (C4). -/
def aptC4x : Appointment :=
  { id := 10, patient_id := 4, doctor_id := 2, appointment_date := 8,
    status := AppointmentStatus.completed, cost := some 0,
    is_return_visit := true,
    doctors := some { consultation_fee := some 50,
                      return_consultation_fee := some 30,
                      free_return_days := some 7 } }

/-- History for C4: a completed visit of the same pair on day 0. -/
def dbC4x : List Appointment :=
  [ { id := 9, patient_id := 4, doctor_id := 2, appointment_date := 0,
      status := AppointmentStatus.completed, cost := some 40,
      is_return_visit := false, doctors := none } ]

/-- Return visit 8 days after the last one, no recorded cost (C4 witness). -/
def aptC4w : Appointment :=
  { id := 12, patient_id := 4, doctor_id := 3, appointment_date := 8,
    status := AppointmentStatus.completed, cost := none,
    is_return_visit := true,
    doctors := some { consultation_fee := some 50,
                      return_consultation_fee := some 30,
                      free_return_days := some 7 } }

/-- History for the C4 witness: a completed visit on day 0. -/
def dbC4w : List Appointment :=
  [ { id := 11, patient_id := 4, doctor_id := 3, appointment_date := 0,
      status := AppointmentStatus.completed, cost := some 50,
      is_return_visit := false, doctors := none } ]

/-- Return visit with no visit history and a recorded cost of 0 (C5). -/
def aptC5x : Appointment :=
  { id := 13, patient_id := 5, doctor_id := 2, appointment_date := 10,
    status := AppointmentStatus.completed, cost := some 0,
    is_return_visit := true,
    doctors := some { consultation_fee := some 50,
                      return_consultation_fee := some 30,
                      free_return_days := some 7 } }

/-- Return visit with no visit history and no recorded cost (C5 witness). -/
def aptC5w : Appointment :=
  { id := 14, patient_id := 5, doctor_id := 3, appointment_date := 10,
    status := AppointmentStatus.completed, cost := none,
    is_return_visit := true,
    doctors := some { consultation_fee := some 50,
                      return_consultation_fee := some 30,
                      free_return_days := some 7 } }

/-- First completed appointment of the C6 witness. -/
def aptC6a : Appointment :=
  { id := 15, patient_id := 6, doctor_id := 1, appointment_date := 10,
    status := AppointmentStatus.completed, cost := some 100,
    is_return_visit := false, doctors := none }

/-- Second completed appointment of the C6 witness. -/
def aptC6b : Appointment :=
  { id := 16, patient_id := 7, doctor_id := 1, appointment_date := 10,
    status := AppointmentStatus.completed, cost := some 40,
    is_return_visit := true,
    doctors := some { consultation_fee := some 50,
                      return_consultation_fee := some 30,
                      free_return_days := some 7 } }

/-- Return visit with no doctor record and no recorded cost (C7 witness). -/
def aptC7w : Appointment :=
  { id := 17, patient_id := 8, doctor_id := 4, appointment_date := 10,
    status := AppointmentStatus.completed, cost := none,
    is_return_visit := true, doctors := none }

/-- Return visit whose doctor has `free_return_days = 0`, with a same-day
completed visit on record (C8 witness). -/
def aptC8w : Appointment :=
  { id := 19, patient_id := 9, doctor_id := 5, appointment_date := 10,
    status := AppointmentStatus.completed, cost := some 40,
    is_return_visit := true,
    doctors := some { consultation_fee := some 50,
                      return_consultation_fee := some 30,
                      free_return_days := some 0 } }

/-- History for the C8 witness: a completed visit of the same pair on the
same day. -/
def dbC8w : List Appointment :=
  [ { id := 18, patient_id := 9, doctor_id := 5, appointment_date := 10,
      status := AppointmentStatus.completed, cost := some 50,
      is_return_visit := false, doctors := none } ]

/-- Return visit whose doctor has `free_return_days = 0`, with a recorded
cost of 0 and a return fee of 30 (C8 counterexample). -/
def aptC8x : Appointment :=
  { id := 21, patient_id := 10, doctor_id := 6, appointment_date := 10,
    status := AppointmentStatus.completed, cost := some 0,
    is_return_visit := true,
    doctors := some { consultation_fee := some 50,
                      return_consultation_fee := some 30,
                      free_return_days := some 0 } }

/-- History for the C8 counterexample: a completed visit of the same pair on
the same day. -/
def dbC8x : List Appointment :=
  [ { id := 20, patient_id := 10, doctor_id := 6, appointment_date := 10,
      status := AppointmentStatus.completed, cost := some 50,
      is_return_visit := false, doctors := none } ]

/-- A valid add-doctor form submission (C10 witness). -/
def addValuesW : AddDoctorValues :=
  { user_id := "u1", doctor_name := "d", specialization := "s",
    license_number := "", consultation_fee := 50,
    return_consultation_fee := 30, free_return_days := 7,
    working_hours_start := "08:00", working_hours_end := "17:00",
    bio := "", experience_years := 3 }

/-- A valid edit-doctor form submission (C10 witness). -/
def editValuesW : EditDoctorValues :=
  { id := "doc1", doctor_name := "d", specialization := "s",
    license_number := "", consultation_fee := 0,
    return_consultation_fee := 0, free_return_days := 0,
    working_hours_start := "08:00", working_hours_end := "17:00",
    bio := "", experience_years := 0 }

/-! ### Helper lemmas -/

/-- `maxDate` yields `none` exactly on the empty list. -/
theorem maxDate_eq_none_iff (l : List Int) : maxDate l = none ↔ l = [] := by
  cases l with
  | nil => simp [maxDate]
  | cons d ds =>
    simp only [maxDate]
    cases maxDate ds <;> simp

/-- The maximum returned by `maxDate` belongs to the list. -/
theorem maxDate_mem (l : List Int) (m : Int) (h : maxDate l = some m) : m ∈ l := by
  induction l generalizing m with
  | nil => simp [maxDate] at h
  | cons d ds ih =>
    simp only [maxDate] at h
    cases hds : maxDate ds with
    | none =>
      rw [hds] at h
      have hd : d = m := by simpa using h
      simp [hd]
    | some m' =>
      rw [hds] at h
      have hmax : max d m' = m := by simpa using h
      rcases max_choice d m' with hc | hc
      · rw [hc] at hmax
        simp [hmax]
      · rw [hc] at hmax
        exact List.mem_cons_of_mem _ (ih m (hmax ▸ hds))

/-- The maximum returned by `maxDate` bounds every element of the list. -/
theorem maxDate_le (l : List Int) (m : Int) (h : maxDate l = some m) :
    ∀ x ∈ l, x ≤ m := by
  induction l generalizing m with
  | nil => simp
  | cons d ds ih =>
    intro x hx
    simp only [maxDate] at h
    cases hds : maxDate ds with
    | none =>
      rw [hds] at h
      have hd : d = m := by simpa using h
      have hnil : ds = [] := (maxDate_eq_none_iff ds).mp hds
      subst hnil
      simp at hx
      omega
    | some m' =>
      rw [hds] at h
      have hmax : max d m' = m := by simpa using h
      rcases List.mem_cons.mp hx with hx | hx
      · subst hx
        rw [← hmax]
        exact le_max_left _ _
      · exact le_trans (ih m' hds x hx) (by rw [← hmax]; exact le_max_right _ _)

/-- Folding `acc + f x` over a list adds the sum of the mapped list. -/
theorem foldl_add_eq_sum (f : Appointment → ℚ) (a : ℚ) (l : List Appointment) :
    l.foldl (fun acc apt => acc + f apt) a = a + (l.map f).sum := by
  induction l generalizing a with
  | nil => simp
  | cons x xs ih => simp [ih, add_assoc]

/-- `jsOr` is nonzero when its left operand is a nonzero value. -/
theorem jsOr_ne_zero_of_left (x : Option ℚ) (y v : ℚ) (hx : x = some v)
    (hv : v ≠ 0) : jsOr x y ≠ 0 := by
  subst hx
  simp [jsOr, hv]

/-- `jsOr` is nonzero when its right operand is nonzero. -/
theorem jsOr_ne_zero_of_right (x : Option ℚ) (y : ℚ) (hy : y ≠ 0) :
    jsOr x y ≠ 0 := by
  cases x with
  | none => simpa [jsOr] using hy
  | some c =>
    by_cases hc : c = 0
    · simp [jsOr, hc]
      exact hy
    · simp [jsOr, hc]

/-- The truthy return cascade is nonzero as soon as one of its three inputs
is set and nonzero. -/
theorem returnCascade_ne_zero (apt : Appointment) (v : ℚ) (hv : v ≠ 0)
    (h : apt.cost = some v ∨
      apt.doctors.bind (fun dr => dr.return_consultation_fee) = some v ∨
      apt.doctors.bind (fun dr => dr.consultation_fee) = some v) :
    returnCascade apt ≠ 0 := by
  unfold returnCascade
  rcases h with h | h | h
  · exact jsOr_ne_zero_of_left _ _ v h hv
  · exact jsOr_ne_zero_of_right _ _ (jsOr_ne_zero_of_left _ _ v h hv)
  · exact jsOr_ne_zero_of_right _ _
      (jsOr_ne_zero_of_right _ _ (jsOr_ne_zero_of_left _ _ v h hv))

/-! ### Claim theorems -/

/-- C1 counterexample: a completed return visit with no completed visit
history at all and no fee data has revenue contribution 0, although no
strictly earlier completed visit of the same (patient, doctor) pair exists —
so zero contribution is not equivalent to the existence of such a visit. -/
theorem c1_zero_without_strictly_earlier_counterexample :
    aptC1.is_return_visit = true ∧ aptC1.status = AppointmentStatus.completed ∧
      contribution [] aptC1 = 0 ∧ strictlyEarlierWithinWindow [] aptC1 = false := by
  decide

/-- C1 (amended): for a return visit the contribution is 0 when
`free_return_days` is set and nonzero and some completed visit with a
different id for the same (patient, doctor) pair has
`date - other.date ≤ free_return_days` (no strictly-earlier requirement);
otherwise it is the first set-and-nonzero value among `cost`,
`return_consultation_fee`, `consultation_fee`, defaulting to 0 — which can
itself be 0 when all fees are unset or zero. -/
theorem c1_return_contribution_characterization (db : List Appointment)
    (apt : Appointment) (h : apt.is_return_visit = true) :
    contribution db apt = if freeQualifies db apt then 0 else returnCascade apt := by
  unfold contribution freeQualifies
  rw [h]
  cases hft : freeReturnDaysTruthy apt with
  | none =>
    cases hlv : lastVisitDate db apt <;> simp
  | some frd =>
    cases hlv : lastVisitDate db apt with
    | none =>
      have hmap : (priorVisits db apt).map (fun r => r.appointment_date) = [] := by
        unfold lastVisitDate at hlv
        exact (maxDate_eq_none_iff _).mp hlv
      have hnil : priorVisits db apt = [] := List.map_eq_nil_iff.mp hmap
      simp [hnil]
    | some m =>
      have hlv' : maxDate ((priorVisits db apt).map (fun r => r.appointment_date)) =
          some m := hlv
      have hmem : m ∈ (priorVisits db apt).map (fun r => r.appointment_date) :=
        maxDate_mem _ _ hlv'
      have hub := maxDate_le _ _ hlv'
      by_cases hle : apt.appointment_date - m ≤ frd
      · obtain ⟨r, hr, hrd⟩ := List.mem_map.mp hmem
        have hex : ∃ x ∈ priorVisits db apt,
            apt.appointment_date ≤ frd + x.appointment_date :=
          ⟨r, hr, by rw [hrd]; omega⟩
        simp [hle, hex]
      · have hnex : ¬ ∃ x ∈ priorVisits db apt,
            apt.appointment_date ≤ frd + x.appointment_date := by
          rintro ⟨r, hr, hcon⟩
          have hrm : r.appointment_date ≤ m :=
            hub _ (List.mem_map_of_mem _ hr)
          exact hle (by omega)
        simp [hle, hnex]

/-- C1 witness: the characterization applied to a return visit 3 days after
a completed visit of the same pair, with a 7-day window. -/
theorem c1_return_contribution_characterization_witness :
    aptC1w.is_return_visit = true ∧
      contribution dbC1w aptC1w =
        if freeQualifies dbC1w aptC1w then 0 else returnCascade aptC1w :=
  ⟨rfl, c1_return_contribution_characterization dbC1w aptC1w rfl⟩

/-- C2 counterexample: a non-return visit with a recorded cost of 0 —
present, but falsy — contributes the consultation fee 50, not the 0 the
claim's `cost`-when-present rule demands. -/
theorem c2_cost_zero_counterexample :
    aptC2x.cost = some 0 ∧ contribution [] aptC2x = 50 := by
  decide

/-- C2 (amended): for a non-return visit the contribution is the cost when
set and nonzero, else the consultation fee when set and nonzero, else 0, and
it never depends on the visit history the prior-visit lookup can see. -/
theorem c2_new_visit_contribution (db db' : List Appointment)
    (apt : Appointment) (h : apt.is_return_visit = false) :
    contribution db apt = newCascadeSpec apt ∧
      contribution db apt = contribution db' apt := by
  have heq : ∀ dbx : List Appointment, contribution dbx apt = newCascadeSpec apt := by
    intro dbx
    unfold contribution
    rw [h]
    simp only [Bool.false_eq_true, if_false]
    unfold newVisitCascade newCascadeSpec consultFallback jsOr
    cases apt.cost with
    | none =>
      cases apt.doctors.bind (fun dr => dr.consultation_fee) with
      | none => rfl
      | some c => by_cases hc : c = 0 <;> simp [hc]
    | some c =>
      by_cases hc : c = 0
      · cases apt.doctors.bind (fun dr => dr.consultation_fee) with
        | none => simp [hc]
        | some c' => by_cases hc' : c' = 0 <;> simp [hc, hc']
      · simp [hc]
  exact ⟨heq db, (heq db).trans (heq db').symm⟩

/-- C2 witness: the amended rule applied to a non-return visit with a
recorded cost of 100. -/
theorem c2_new_visit_contribution_witness :
    aptC2w.is_return_visit = false ∧
      (contribution [] aptC2w = newCascadeSpec aptC2w ∧
        contribution [] aptC2w = contribution dbC1w aptC2w) :=
  ⟨rfl, c2_new_visit_contribution [] dbC1w aptC2w rfl⟩

/-- C3 counterexample: with `free_return_days = 0` the window check is never
reached (0 is falsy), so a return visit whose most recent completed visit of
the same pair lies exactly `free_return_days = 0` days earlier contributes
its cost 50, not 0. -/
theorem c3_boundary_counterexample :
    aptC3x.doctors.bind (fun dr => dr.free_return_days) = some 0 ∧
      lastVisitDate dbC3x aptC3x = some aptC3x.appointment_date ∧
      contribution dbC3x aptC3x = 50 := by
  decide

/-- C3 (amended): provided `free_return_days` is set and nonzero, a return
visit whose most recent completed visit of the same (patient, doctor) pair is
exactly `free_return_days` days earlier contributes 0 — the comparison
`daysDiff ≤ free_return_days` is inclusive at the boundary. -/
theorem c3_boundary_inclusive_free (db : List Appointment) (apt : Appointment)
    (f dd : Int) (h : apt.is_return_visit = true)
    (hf : apt.doctors.bind (fun dr => dr.free_return_days) = some f)
    (hf0 : f ≠ 0)
    (hd : lastVisitDate db apt = some dd)
    (hexact : apt.appointment_date - dd = f) :
    contribution db apt = 0 := by
  have hft : freeReturnDaysTruthy apt = some f := by
    simp [freeReturnDaysTruthy, hf, hf0]
  unfold contribution
  rw [h, hd, hft]
  simp [hexact]

/-- C3 witness: a return visit exactly 7 days after a completed visit of the
same pair, with a 7-day window, contributes 0. -/
theorem c3_boundary_inclusive_free_witness :
    aptC3w.is_return_visit = true ∧
      aptC3w.doctors.bind (fun dr => dr.free_return_days) = some 7 ∧
      lastVisitDate dbC3w aptC3w = some 0 ∧
      aptC3w.appointment_date - 0 = 7 ∧
      contribution dbC3w aptC3w = 0 :=
  ⟨rfl, rfl, by decide, by decide,
    c3_boundary_inclusive_free dbC3w aptC3w 7 0 rfl rfl (by decide)
      (by decide) (by decide)⟩

/-- C4 counterexample: a return visit 8 days after the last completed visit,
with a recorded cost of 0 and a return fee of 30, contributes 30, while the
claim's nullish cascade `cost ?? return_consultation_fee ??
consultation_fee ?? 0` takes the present cost and yields 0. -/
theorem c4_nullish_cascade_counterexample :
    lastVisitDate dbC4x aptC4x = some 0 ∧
      aptC4x.doctors.bind (fun dr => dr.free_return_days) = some 7 ∧
      aptC4x.appointment_date - 0 = 7 + 1 ∧
      nullishReturnCascade aptC4x = 0 ∧
      contribution dbC4x aptC4x = 30 := by
  decide

/-- C4 (amended): a return visit whose most recent completed visit of the
same pair is `free_return_days + 1` days earlier follows the truthy cascade —
the first set-and-nonzero value among `cost`, `return_consultation_fee`,
`consultation_fee`, else 0 — and is nonzero whenever one of those fees is set
and positive. -/
theorem c4_outside_window_truthy_cascade (db : List Appointment)
    (apt : Appointment) (f dd : Int) (h : apt.is_return_visit = true)
    (hf : apt.doctors.bind (fun dr => dr.free_return_days) = some f)
    (hd : lastVisitDate db apt = some dd)
    (hgap : apt.appointment_date - dd = f + 1) :
    contribution db apt = returnCascade apt ∧
      ∀ v : ℚ, 0 < v →
        (apt.cost = some v ∨
          apt.doctors.bind (fun dr => dr.return_consultation_fee) = some v ∨
          apt.doctors.bind (fun dr => dr.consultation_fee) = some v) →
        contribution db apt ≠ 0 := by
  have hmain : contribution db apt = returnCascade apt := by
    unfold contribution
    by_cases hf0 : f = 0
    · have hft : freeReturnDaysTruthy apt = none := by
        simp [freeReturnDaysTruthy, hf, hf0]
      rw [h, hd, hft]
      simp
    · have hft : freeReturnDaysTruthy apt = some f := by
        simp [freeReturnDaysTruthy, hf, hf0]
      have hgt : ¬ apt.appointment_date - dd ≤ f := by omega
      rw [h, hd, hft]
      simp [hgt]
  refine ⟨hmain, fun v hv hmem => ?_⟩
  rw [hmain]
  exact returnCascade_ne_zero apt v (ne_of_gt hv) hmem

/-- C4 witness: a return visit 8 days after the last one, with no recorded
cost and a return fee of 30, contributes the cascade value, which is
nonzero. -/
theorem c4_outside_window_truthy_cascade_witness :
    contribution dbC4w aptC4w = returnCascade aptC4w ∧
      contribution dbC4w aptC4w ≠ 0 :=
  ⟨(c4_outside_window_truthy_cascade dbC4w aptC4w 7 0 rfl rfl (by decide)
      (by decide)).1,
    (c4_outside_window_truthy_cascade dbC4w aptC4w 7 0 rfl rfl (by decide)
      (by decide)).2 30 (by norm_num) (Or.inr (Or.inl rfl))⟩

/-- C5 counterexample: a return visit with no visit history, a recorded cost
of 0 and a return fee of 30 contributes 30, while the claim's nullish cascade
`cost ?? return_consultation_fee ?? consultation_fee ?? 0` yields 0. -/
theorem c5_no_history_nullish_counterexample :
    lastVisitDate [] aptC5x = none ∧
      nullishReturnCascade aptC5x = 0 ∧
      contribution [] aptC5x = 30 := by
  decide

/-- C5 (amended): a return visit for which the prior-visit lookup finds no
completed visit of the same (patient, doctor) pair follows the truthy
cascade — the first set-and-nonzero value among `cost`,
`return_consultation_fee`, `consultation_fee`, else 0; absence of history
alone never forces the contribution to 0. -/
theorem c5_no_history_truthy_cascade (db : List Appointment)
    (apt : Appointment) (h : apt.is_return_visit = true)
    (hnone : lastVisitDate db apt = none) :
    contribution db apt = returnCascade apt := by
  unfold contribution
  rw [h, hnone]
  simp

/-- C5 witness: a return visit with an empty visit history and a return fee
of 30 contributes the cascade value. -/
theorem c5_no_history_truthy_cascade_witness :
    lastVisitDate [] aptC5w = none ∧
      contribution [] aptC5w = returnCascade aptC5w :=
  ⟨by decide, c5_no_history_truthy_cascade [] aptC5w rfl (by decide)⟩

/-- C6: the daily total is invariant under permutation of the fetched
appointment list (with the visit history fixed). -/
theorem c6_totalRevenue_perm_invariant (db : List Appointment)
    (l l' : List Appointment) (h : l.Perm l') :
    totalRevenue db l = totalRevenue db l' := by
  unfold totalRevenue
  rw [foldl_add_eq_sum, foldl_add_eq_sum]
  exact congrArg _ (List.Perm.sum_eq (List.Perm.map _ (List.Perm.filter _ h)))

/-- C6 witness: swapping two completed appointments leaves the total
unchanged. -/
theorem c6_totalRevenue_perm_invariant_witness :
    totalRevenue [] [aptC6a, aptC6b] = totalRevenue [] [aptC6b, aptC6a] :=
  c6_totalRevenue_perm_invariant [] [aptC6a, aptC6b] [aptC6b, aptC6a]
    (List.Perm.swap aptC6b aptC6a [])

/-- C7: when the recorded cost and both doctor fees are absent — in
particular when the appointment has no doctor fee record at all — the
computation still produces a value, and the cascade terminates at a
contribution of 0 for any visit history. -/
theorem c7_missing_fees_zero_contribution (db : List Appointment)
    (apt : Appointment) (hc : apt.cost = none)
    (hr : apt.doctors.bind (fun dr => dr.return_consultation_fee) = none)
    (hcf : apt.doctors.bind (fun dr => dr.consultation_fee) = none) :
    contribution db apt = 0 := by
  have hrc : returnCascade apt = 0 := by
    simp [returnCascade, jsOr, hc, hr, hcf]
  have hnc : newVisitCascade apt = 0 := by
    simp [newVisitCascade, jsOr, hc, hcf]
  unfold contribution
  cases hret : apt.is_return_visit with
  | false => simp [hnc]
  | true =>
    cases hlv : lastVisitDate db apt <;>
      cases hft : freeReturnDaysTruthy apt <;>
        simp [hrc]

/-- C7 witness: a return visit with no doctor record and no recorded cost
contributes 0. -/
theorem c7_missing_fees_zero_contribution_witness :
    aptC7w.cost = none ∧ aptC7w.doctors = none ∧
      contribution [] aptC7w = 0 :=
  ⟨rfl, rfl, c7_missing_fees_zero_contribution [] aptC7w rfl rfl rfl⟩

/-- C8 counterexample: with `free_return_days = 0` the free branch is indeed
never taken, but the paid cascade is JS `||`, not `??`: a return visit with a
recorded cost of 0 (present) and a return fee of 30 contributes 30, while the
claimed nullish cascade `cost ?? return_consultation_fee ??
consultation_fee ?? 0` takes the present cost and yields 0. -/
theorem c8_nullish_cascade_counterexample :
    aptC8x.doctors.bind (fun dr => dr.free_return_days) = some 0 ∧
      lastVisitDate dbC8x aptC8x = some aptC8x.appointment_date ∧
      nullishReturnCascade aptC8x = 0 ∧
      contribution dbC8x aptC8x = 30 := by
  decide

/-- C8 (amended): when the doctor's `free_return_days` is unset or 0 (falsy),
a return visit always follows the paid truthy cascade — the first
set-and-nonzero value among `cost`, `return_consultation_fee`,
`consultation_fee`, else 0 — whatever completed visits the history holds,
even one on the same day. -/
theorem c8_zero_or_null_window_never_free (db : List Appointment)
    (apt : Appointment) (h : apt.is_return_visit = true)
    (hf : apt.doctors.bind (fun dr => dr.free_return_days) = none ∨
      apt.doctors.bind (fun dr => dr.free_return_days) = some 0) :
    contribution db apt = returnCascade apt := by
  have hft : freeReturnDaysTruthy apt = none := by
    rcases hf with hf | hf <;> simp [freeReturnDaysTruthy, hf]
  unfold contribution
  rw [h, hft]
  cases hlv : lastVisitDate db apt <;> simp

/-- C8 witness: with `free_return_days = 0` and a completed visit of the same
pair on the same day, the contribution is still the cascade value. -/
theorem c8_zero_or_null_window_never_free_witness :
    lastVisitDate dbC8w aptC8w = some aptC8w.appointment_date ∧
      contribution dbC8w aptC8w = returnCascade aptC8w :=
  ⟨by decide, c8_zero_or_null_window_never_free dbC8w aptC8w rfl (Or.inr rfl)⟩

/-- A global single-character replacement distributes over concatenation. -/
theorem replaceAll_append (t : Char) (r a b : List Char) :
    replaceAll t r (a ++ b) = replaceAll t r a ++ replaceAll t r b := by
  induction a with
  | nil => simp [replaceAll]
  | cons c s ih => simp [replaceAll, ih]

/-- The three sequential replacements equal the single-pass per-character
escape: escaping backslashes first avoids double-escaping the inserted
escapes. -/
theorem sanitize_chain_eq_spec (s : List Char) :
    replaceAll '_' ['\\', '_']
        (replaceAll '%' ['\\', '%']
          (replaceAll '\\' ['\\', '\\'] s)) = sanitizeSpec s := by
  induction s with
  | nil => rfl
  | cons c s ih =>
    by_cases h1 : c = '\\'
    · subst h1
      simp [replaceAll, replaceAll_append, sanitizeSpec, escapeSpecChar, ih]
    · by_cases h2 : c = '%'
      · subst h2
        simp [replaceAll, replaceAll_append, sanitizeSpec, escapeSpecChar, ih]
      · by_cases h3 : c = '_'
        · subst h3
          simp [replaceAll, replaceAll_append, sanitizeSpec, escapeSpecChar, ih]
        · simp [replaceAll, replaceAll_append, sanitizeSpec, escapeSpecChar,
            h1, h2, h3, ih]

/-- C9: `sanitizeSearchInput` prefixes every backslash, percent sign and
underscore of the input with an escaping backslash, leaves every other
character unchanged, and maps empty input to the empty string. -/
theorem c9_sanitize_escapes_specials :
    (∀ s : List Char, sanitizeSearchInput s = sanitizeSpec s) ∧
      sanitizeSearchInput [] = [] := by
  refine ⟨fun s => ?_, rfl⟩
  unfold sanitizeSearchInput
  by_cases h : s = []
  · subst h
    rfl
  · rw [if_neg h]
    exact sanitize_chain_eq_spec s

/-- C10: a doctor add- or edit-form submission that passes validation — the
only way the submit handlers issue a write — has a non-negative consultation
fee and a non-negative free-return window. -/
theorem c10_validated_doctor_fees_nonneg (va : AddDoctorValues)
    (ve : EditDoctorValues)
    (ha : submitGate validateAdd va ≠ none)
    (he : submitGate validateEdit ve ≠ none) :
    0 ≤ va.consultation_fee ∧ 0 ≤ va.free_return_days ∧
      0 ≤ ve.consultation_fee ∧ 0 ≤ ve.free_return_days := by
  have ha' : validateAdd va = [] := by
    by_cases hv : validateAdd va = []
    · exact hv
    · exact absurd (by simp [submitGate, hv]) ha
  have he' : validateEdit ve = [] := by
    by_cases hv : validateEdit ve = []
    · exact hv
    · exact absurd (by simp [submitGate, hv]) he
  refine ⟨?_, ?_, ?_, ?_⟩
  · by_contra hneg
    have hmem : ("consultation_fee", "الرسوم لا يمكن أن تكون سالبة.") ∈
        validateAdd va := by
      unfold validateAdd
      simp [not_le.mp hneg]
    rw [ha'] at hmem
    exact absurd hmem (List.not_mem_nil _)
  · by_contra hneg
    have hmem : ("free_return_days", "عدد أيام العودة لا يمكن أن يكون سالباً.") ∈
        validateAdd va := by
      unfold validateAdd
      simp [not_le.mp hneg]
    rw [ha'] at hmem
    exact absurd hmem (List.not_mem_nil _)
  · by_contra hneg
    have hmem : ("consultation_fee", "الرسوم لا يمكن أن تكون سالبة.") ∈
        validateEdit ve := by
      unfold validateEdit
      simp [not_le.mp hneg]
    rw [he'] at hmem
    exact absurd hmem (List.not_mem_nil _)
  · by_contra hneg
    have hmem : ("free_return_days", "عدد أيام العودة لا يمكن أن يكون سالباً.") ∈
        validateEdit ve := by
      unfold validateEdit
      simp [not_le.mp hneg]
    rw [he'] at hmem
    exact absurd hmem (List.not_mem_nil _)

/-- C10 witness: the guarantee applied to two submissions that pass
validation. -/
theorem c10_validated_doctor_fees_nonneg_witness :
    0 ≤ addValuesW.consultation_fee ∧ 0 ≤ addValuesW.free_return_days ∧
      0 ≤ editValuesW.consultation_fee ∧ 0 ≤ editValuesW.free_return_days :=
  c10_validated_doctor_fees_nonneg addValuesW editValuesW (by decide) (by decide)
